import Mathlib

/-!
Shallow embedding of `internal/provider/provider.go` from the
`terraform-provider-unleash` repository, together with proofs about the
configuration resolver, the client factory and the version gate.

Conventions used throughout:
* Terraform diagnostics (`diag.Diagnostics`) are a `List Diag`; the Go methods
  `AddError` / `AddWarning` append to the list and `HasError` scans it.
* `basetypes.StringValue` is the three-state value used by the framework
  (null, unknown, or a known string).
* The process environment is a function `String → Option String`; `os.Getenv`
  returns the empty string for unset variables, which `getEnv` reproduces.
* Effectful calls (the HTTP request issued by `versionCheck`) are modelled by
  passing the observed call result as an explicit argument.
-/

/-- Model of a single Terraform diagnostic: either an error or a warning,
each carrying a summary and a detail string. -/
inductive Diag where
  | error (summary detail : String)
  | warning (summary detail : String)
deriving Repr, DecidableEq

/-- Whether a diagnostic is an error (used by `diag.Diagnostics.HasError`). -/
def Diag.isError : Diag → Bool
  | .error _ _ => true
  | .warning _ _ => false

/-- Model of `diag.Diagnostics.HasError`: true when any entry is an error. -/
def hasError (diags : List Diag) : Bool :=
  diags.any Diag.isError

/-- Number of error diagnostics in a diagnostics collection. -/
def countErrors (diags : List Diag) : Nat :=
  (diags.filter Diag.isError).length

/-- Model of `basetypes.StringValue`: a Terraform string attribute is null,
unknown, or a known string. -/
inductive StringValue where
  | null
  | unknown
  | known (value : String)
deriving Repr, DecidableEq

/-- Model of `basetypes.StringValue.IsNull`. -/
def StringValue.isNull : StringValue → Bool
  | .null => true
  | _ => false

/-- Model of `basetypes.StringValue.ValueString`: the known value, or the
empty string for null/unknown values. -/
def StringValue.valueString : StringValue → String
  | .known s => s
  | _ => ""

/-- Model of `os.Getenv`: the variable value, or the empty string when the
variable is unset. -/
def getEnv (env : String → Option String) (name : String) : String :=
  (env name).getD ""

/-- Model of the provider data model `UnleashConfiguration`
(fields `base_url` and `authorization`). -/
structure UnleashConfiguration where
  baseUrl : StringValue
  authorization : StringValue
deriving Repr, DecidableEq

/-- Model of `configValue`: return the configuration attribute's value unless
the attribute is null, in which case fall back to the environment variable. -/
def configValue (cv : StringValue) (envName : String)
    (env : String → Option String) : String :=
  if cv.isNull then getEnv env envName else cv.valueString

/-- Model of `mustHave`: append an error diagnostic naming the field when the
value is the empty string. -/
def mustHave (name : String) (value : String) (diagnostics : List Diag) :
    List Diag :=
  if value = "" then
    diagnostics ++
      [Diag.error ("Unable to find " ++ name) (name ++ " cannot be an empty string")]
  else diagnostics

/-- Model of Go `strings.TrimSuffix`: remove the suffix once if present,
otherwise return the string unchanged. -/
def trimSuffix (s suffix : String) : String :=
  if suffix.data.isSuffixOf s.data then
    ⟨s.data.take (s.data.length - suffix.data.length)⟩
  else s

/-- Whether `s` ends with `suffix` (model of Go `strings.HasSuffix`). -/
def endsWith (s suffix : String) : Bool :=
  suffix.data.isSuffixOf s.data

/-- Model of Go `strings.ToLower` (the strings involved here are ASCII). -/
def toLower (s : String) : String :=
  ⟨s.data.map Char.toLower⟩

/-- Model of `unleash.ServerConfiguration` (URL and description). -/
structure ServerConfiguration where
  url : String
  description : String
deriving Repr, DecidableEq

/-- Model of the configured `unleash.APIClient`: the server list, the default
headers, and whether the HTTP transport logs request/response bodies. -/
structure APIClient where
  servers : List ServerConfiguration
  defaultHeaders : List (String × String)
  isDebug : Bool
deriving Repr, DecidableEq

/-- Model of `unleashClient`: resolve `base_url` (trimming a trailing slash)
and `authorization`, validate both with `mustHave`, and either return `none`
together with the accumulated diagnostics or build the configured client. -/
def unleashClient (config : UnleashConfiguration)
    (env : String → Option String) (diagnostics : List Diag) :
    Option APIClient × List Diag :=
  let base_url := trimSuffix (configValue config.baseUrl "UNLEASH_URL" env) "/"
  let authorization := configValue config.authorization "AUTH_TOKEN" env
  let diagnostics := mustHave "base_url" base_url diagnostics
  let diagnostics := mustHave "authorization" authorization diagnostics
  if hasError diagnostics then
    (none, diagnostics)
  else
    let logLevel := toLower (getEnv env "TF_LOG")
    let isDebug := logLevel = "debug" || logLevel = "trace"
    (some
      { servers := [{ url := base_url, description := "Unleash server" }]
        defaultHeaders := [("Authorization", authorization)]
        isDebug := isDebug },
      diagnostics)

example :
    (unleashClient
      { baseUrl := .known "http://unleash.example//",
        authorization := .known "token" }
      (fun _ => none) []).fst =
      some
        { servers := [{ url := "http://unleash.example/",
                        description := "Unleash server" }]
          defaultHeaders := [("Authorization", "token")]
          isDebug := false } := by decide

example :
    (unleashClient { baseUrl := .null, authorization := .null }
      (fun _ => none) []).snd =
      [Diag.error "Unable to find base_url" "base_url cannot be an empty string",
       Diag.error "Unable to find authorization"
         "authorization cannot be an empty string"] := by decide

/-- Model of `semver.Version` (Masterminds/semver v1): numeric major, minor
and patch components plus the raw prerelease and metadata strings. The Go
fields are `int64`; the anchored parse regex only produces non-negative
numbers, so `Nat` together with the explicit `int64Max` overflow check in the
parser captures the same set of values. -/
structure Semver where
  major : Nat
  minor : Nat
  patch : Nat
  pre : String
  metadata : String
deriving Repr, DecidableEq

/-- Largest value accepted by `strconv.ParseInt(_, 10, 64)` for a string of
decimal digits. -/
def int64Max : Nat := 2 ^ 63 - 1

/-- ASCII digit test (the `[0-9]` class of the semver regex). -/
def isDigitChar (c : Char) : Bool :=
  '0' ≤ c && c ≤ '9'

/-- The `[0-9A-Za-z-]` character class used for prerelease and metadata
segments of the semver regex. -/
def isPreChar (c : Char) : Bool :=
  isDigitChar c || ('A' ≤ c && c ≤ 'Z') || ('a' ≤ c && c ≤ 'z') || c = '-'

/-- Numeric value of a list of decimal digit characters. -/
def digitsToNat (ds : List Char) : Nat :=
  ds.foldl (fun n c => 10 * n + (c.toNat - '0'.toNat)) 0

/-- Split a character list on `'.'` (model of `strings.Split (_, ".")`,
always returning at least one, possibly empty, segment). -/
def splitOnDot : List Char → List (List Char)
  | [] => [[]]
  | '.' :: rest => [] :: splitOnDot rest
  | c :: rest =>
    match splitOnDot rest with
    | s :: ss => (c :: s) :: ss
    | [] => [[c]]

/-- Whether a character list matches `[0-9A-Za-z-]+(\.[0-9A-Za-z-]+)*`, the
prerelease/metadata part of the semver regex. -/
def validDotSegs (cs : List Char) : Bool :=
  (splitOnDot cs).all fun seg => !seg.isEmpty && seg.all isPreChar

/-- Parse the optional `-prerelease` / `+metadata` tail of a semver string.
Fails exactly when the anchored regex would fail on this remainder. -/
def parsePreMeta (cs : List Char) : Option (String × String) :=
  match cs with
  | [] => some ("", "")
  | '-' :: r =>
    let (preChars, metaPart) := r.span (fun c => c ≠ '+')
    match metaPart with
    | [] => if validDotSegs preChars then some (⟨preChars⟩, "") else none
    | _ :: m =>
      if validDotSegs preChars && validDotSegs m then
        some (⟨preChars⟩, ⟨m⟩)
      else none
  | '+' :: m => if validDotSegs m then some ("", ⟨m⟩) else none
  | _ => none

/-- Parse an optional `.digits` component (`(\.[0-9]+)?` in the regex):
`none` when the remainder starts with `'.'` but no digits follow (the whole
parse must fail), otherwise the digits (or `[]` when absent) and the rest. -/
def parseDotNum (cs : List Char) : Option (List Char × List Char) :=
  match cs with
  | '.' :: r =>
    match r.span isDigitChar with
    | ([], _) => none
    | (d, rest) => some (d, rest)
  | _ => some ([], cs)

/-- Model of `strconv.ParseInt(s, 10, 64)` applied to a digit string matched
by the regex: the numeric value, or an out-of-range error message. -/
def parseInt64Digits (ds : List Char) : Except String Nat :=
  if digitsToNat ds ≤ int64Max then .ok (digitsToNat ds)
  else
    .error ("strconv.ParseInt: parsing \"" ++ (⟨ds⟩ : String) ++
      "\": value out of range")

/-- Model of `semver.NewVersion` (Masterminds/semver v1): match the anchored
regex `^v?([0-9]+)(\.[0-9]+)?(\.[0-9]+)?(-pre)?(\+meta)?$`, defaulting absent
minor/patch components to 0, and report `ErrInvalidSemVer` on a regex
mismatch or a wrapped `strconv` error on 64-bit overflow. -/
def semverNewVersion (s : String) : Except String Semver :=
  let cs := match s.data with
    | 'v' :: r => r
    | r => r
  match cs.span isDigitChar with
  | ([], _) => .error "Invalid Semantic Version"
  | (d1, r1) =>
    match parseDotNum r1 with
    | none => .error "Invalid Semantic Version"
    | some (d2, r2) =>
      match parseDotNum r2 with
      | none => .error "Invalid Semantic Version"
      | some (d3, r3) =>
        match parsePreMeta r3 with
        | none => .error "Invalid Semantic Version"
        | some (pre, metadata) =>
          match parseInt64Digits d1 with
          | .error e => .error ("Error parsing version segment: " ++ e)
          | .ok major =>
            match (if d2.isEmpty then .ok 0 else parseInt64Digits d2 :
                Except String Nat) with
            | .error e => .error ("Error parsing version segment: " ++ e)
            | .ok minor =>
              match (if d3.isEmpty then .ok 0 else parseInt64Digits d3 :
                  Except String Nat) with
              | .error e => .error ("Error parsing version segment: " ++ e)
              | .ok patch =>
                .ok { major, minor, patch, pre, metadata }

example : semverNewVersion "5.6.0-0" =
    .ok { major := 5, minor := 6, patch := 0, pre := "0", metadata := "" } := rfl

example : semverNewVersion "v1.2" =
    .ok { major := 1, minor := 2, patch := 0, pre := "", metadata := "" } := rfl

example : semverNewVersion "1.0.0-alpha.1+build.5" =
    .ok { major := 1, minor := 0, patch := 0, pre := "alpha.1",
          metadata := "build.5" } := rfl

example : semverNewVersion "not-a-version" =
    .error "Invalid Semantic Version" := rfl

example : semverNewVersion "1.2.3.4" =
    .error "Invalid Semantic Version" := rfl

/-- Model of `strconv.ParseInt(s, 10, 64)` as used by `comparePrePart`:
optional sign, then decimal digits, with 64-bit range checking. -/
def parseIntChars (cs : List Char) : Option Int :=
  let (sign, ds) : Int × List Char :=
    match cs with
    | '+' :: r => (1, r)
    | '-' :: r => (-1, r)
    | r => (1, r)
  if ds.isEmpty || !ds.all isDigitChar then none
  else
    let v : Int := sign * (digitsToNat ds : Int)
    if v < -(2 ^ 63 : Int) || v > ((2 ^ 63 : Int) - 1) then none else some v

/-- Lexicographic (byte-wise) strict order on character lists, modelling Go
string comparison `<` on the ASCII strings involved. -/
def charsLt : List Char → List Char → Bool
  | [], [] => false
  | [], _ :: _ => true
  | _ :: _, [] => false
  | a :: as, b :: bs => if a < b then true else if b < a then false else charsLt as bs

/-- Model of `comparePrePart` (Masterminds/semver v1): compare one dot-part
of two prerelease strings, numerically when both parse as integers,
lexicographically when neither does, and number-below-string otherwise. -/
def comparePrePart (s o : List Char) : Int :=
  if s = o then 0
  else if s = [] then (if o ≠ [] then -1 else 1)
  else if o = [] then (if s ≠ [] then 1 else -1)
  else
    match parseIntChars o, parseIntChars s with
    | none, none => if charsLt o s then 1 else -1
    | none, some _ => -1
    | some _, none => 1
    | some oi, some si => if si > oi then 1 else -1

/-- Tail of the `comparePrerelease` loop once the left side has run out of
parts: each remaining right part is compared against the empty padding. -/
def comparePrePartsRight : List (List Char) → Int
  | [] => 0
  | o :: os =>
    let d := comparePrePart [] o
    if d ≠ 0 then d else comparePrePartsRight os

/-- Tail of the `comparePrerelease` loop once the right side has run out of
parts: each remaining left part is compared against the empty padding. -/
def comparePrePartsLeft : List (List Char) → Int
  | [] => 0
  | s :: ss =>
    let d := comparePrePart s []
    if d ≠ 0 then d else comparePrePartsLeft ss

/-- The part-by-part loop of `comparePrerelease`: missing parts are padded
with the empty string, and the first non-zero comparison wins. -/
def comparePreParts : List (List Char) → List (List Char) → Int
  | [], os => comparePrePartsRight os
  | ss, [] => comparePrePartsLeft ss
  | s :: ss, o :: os =>
    let d := comparePrePart s o
    if d ≠ 0 then d else comparePreParts ss os

/-- Model of `comparePrerelease` (Masterminds/semver v1): split both
prerelease strings on `'.'` and compare part by part. -/
def comparePrerelease (v o : String) : Int :=
  comparePreParts (splitOnDot v.data) (splitOnDot o.data)

/-- Model of `compareSegment`: three-way comparison of numeric components. -/
def compareSegment (v o : Nat) : Int :=
  if v < o then -1 else if v > o then 1 else 0

/-- Model of `semver.Version.Compare` (Masterminds/semver v1): compare major,
minor and patch; on a tie a release outranks any prerelease, and two
prereleases are compared with `comparePrerelease`. Metadata is ignored. -/
def semverCompare (v o : Semver) : Int :=
  if compareSegment v.major o.major ≠ 0 then compareSegment v.major o.major
  else if compareSegment v.minor o.minor ≠ 0 then compareSegment v.minor o.minor
  else if compareSegment v.patch o.patch ≠ 0 then compareSegment v.patch o.patch
  else if v.pre = "" && o.pre = "" then 0
  else if v.pre = "" then 1
  else if o.pre = "" then -1
  else comparePrerelease v.pre o.pre

/-- Model of `semver.Version.String` (Masterminds/semver v1):
`major.minor.patch`, then `-pre` and `+metadata` when present. -/
def semverString (v : Semver) : String :=
  toString v.major ++ "." ++ toString v.minor ++ "." ++ toString v.patch ++
    (if v.pre ≠ "" then "-" ++ v.pre else "") ++
    (if v.metadata ≠ "" then "+" ++ v.metadata else "")

/-- The minimum supported version of `checkIsSupportedVersion`: the Go code
runs `semver.NewVersion("5.6.0-0")` and ignores the (impossible) error. -/
def minimumVersion : Semver :=
  match semverNewVersion "5.6.0-0" with
  | .ok v => v
  | .error _ => { major := 0, minor := 0, patch := 0, pre := "", metadata := "" }

example : minimumVersion =
    { major := 5, minor := 6, patch := 0, pre := "0", metadata := "" } := rfl

/-- Model of `checkIsSupportedVersion`: report a parse failure as a fatal
error, report versions strictly below `minimumVersion` as unsupported, and
add nothing otherwise. -/
def checkIsSupportedVersion (version : String) (diags : List Diag) :
    List Diag :=
  match semverNewVersion version with
  | .error e =>
    diags ++ [Diag.error ("Unable read unleash version from string " ++ version) e]
  | .ok v =>
    if semverCompare v minimumVersion < 0 then
      diags ++ [Diag.error "Unsupported Unleash version"
        ("You\x27re using version " ++ version ++
          ", while the provider requires at least " ++ semverString minimumVersion)]
    else diags

example : checkIsSupportedVersion "5.5.9" [] =
    [Diag.error "Unsupported Unleash version"
      "You\x27re using version 5.5.9, while the provider requires at least 5.6.0-0"] := rfl

example : checkIsSupportedVersion "5.6.0" [] = [] := rfl

example : checkIsSupportedVersion "5.7.0" [] = [] := rfl

example : checkIsSupportedVersion "5.6.0-rc.1" [] = [] := rfl

/-- Model of `VersionInfoSchemaLatest` from the generated API client: the
latest OSS and Enterprise version strings of the server metadata response
(pointer fields in Go, taken as present in responses that pass validation,
since `versionCheck` dereferences them unconditionally). -/
structure VersionInfoLatest where
  oss : String
  enterprise : String
deriving Repr, DecidableEq

/-- Model of `VersionInfoSchema`: whether the server runs the latest release,
and the latest known versions. -/
structure VersionInfo where
  isLatest : Bool
  latest : VersionInfoLatest
deriving Repr, DecidableEq

/-- Model of the `GetUiConfig` response body: the server version string and
its version info. -/
structure UiConfig where
  version : String
  versionInfo : VersionInfo
deriving Repr, DecidableEq

/-- Observed outcome of `client.AdminUIAPI.GetUiConfig(ctx).Execute()`: the
decoded body, the HTTP status code of the response (`none` models a nil
`*http.Response`), and the transport error if any. -/
structure ApiCall where
  uiConfig : UiConfig
  statusCode : Option Nat
  err : Option String
deriving Repr, DecidableEq

/-- Modelled from the spec: `ValidateApiResponse` lives in a repository file
that is not among the provided sources (only its caller `versionCheck` is).
Per the spec, a network/HTTP failure (`err` set) or a status code other than
the expected one produces a fatal error diagnostic and the validation fails;
otherwise it succeeds without adding diagnostics. -/
def ValidateApiResponse (apiResponse : Option Nat) (expectedStatusCode : Nat)
    (diags : List Diag) (err : Option String) : Bool × List Diag :=
  if err.isSome || apiResponse != some expectedStatusCode then
    (false,
      diags ++ [Diag.error "Unexpected API response"
        "the API call failed or returned an unexpected status code"])
  else (true, diags)

/-- Model of `versionCheck`: validate the metadata response, warn when the
server is not on the latest release, then gate on the minimum supported
version. -/
def versionCheck (call : ApiCall) (diags : List Diag) : List Diag :=
  match ValidateApiResponse call.statusCode 200 diags call.err with
  | (false, diags) => diags
  | (true, diags) =>
    let diags :=
      if !call.uiConfig.versionInfo.isLatest then
        diags ++ [Diag.warning
          "You\x27re not using the latest Unleash version, consider upgrading"
          ("You\x27re using version " ++ call.uiConfig.version ++
            ", the latest unleash-server is " ++ call.uiConfig.versionInfo.latest.oss ++
            ", while the latest enterprise version is: " ++
            call.uiConfig.versionInfo.latest.enterprise)]
      else diags
    checkIsSupportedVersion call.uiConfig.version diags

/-- Model of `provider.ConfigureResponse`: the accumulated diagnostics and
the client handed to data sources and resources (`none` when unset). -/
structure ConfigureResponse where
  diagnostics : List Diag
  dataSourceData : Option APIClient
  resourceData : Option APIClient
deriving Repr, DecidableEq

/-- Model of `UnleashProvider.Configure`. `getDiags` is the diagnostics
contribution of `req.Config.Get`, and `call` the observed outcome of the
version-gate HTTP request that `versionCheck` makes with the built client. -/
def Configure (getDiags : List Diag) (config : UnleashConfiguration)
    (env : String → Option String) (call : ApiCall) : ConfigureResponse :=
  let diags := getDiags
  if hasError diags then { diagnostics := diags, dataSourceData := none, resourceData := none }
  else
    match unleashClient config env diags with
    | (client, diags) =>
      if hasError diags then
        { diagnostics := diags, dataSourceData := none, resourceData := none }
      else
        let diags := versionCheck call diags
        if hasError diags then
          { diagnostics := diags, dataSourceData := none, resourceData := none }
        else
          { diagnostics := diags, dataSourceData := client, resourceData := client }

/-- Model of the provider object: its only field is the version string. -/
structure UnleashProvider where
  version : String
deriving Repr, DecidableEq

/-- Model of `New`: the factory closure builds an `UnleashProvider` with a
zero-valued `version` field; the `version` argument is never used. -/
def New (version : String) : Unit → UnleashProvider :=
  fun _ => {version := ""}

/-- Model of `provider.MetadataResponse` (type name and version). -/
structure MetadataResponse where
  typeName : String
  version : String
deriving Repr, DecidableEq

/-- Model of `UnleashProvider.Metadata`: reports type name `unleash` and the
provider object's version field. -/
def Metadata (p : UnleashProvider) : MetadataResponse :=
  { typeName := "unleash", version := p.version }

lemma hasError_append (a b : List Diag) :
    hasError (a ++ b) = (hasError a || hasError b) := by
  simp [hasError]

lemma countErrors_append (a b : List Diag) :
    countErrors (a ++ b) = countErrors a + countErrors b := by
  simp [countErrors]

lemma mustHave_of_empty (name : String) (d : List Diag) :
    mustHave name "" d =
      d ++ [Diag.error ("Unable to find " ++ name)
        (name ++ " cannot be an empty string")] := by
  simp [mustHave]

lemma countErrors_mustHave_le (name value : String) (d : List Diag) :
    countErrors d ≤ countErrors (mustHave name value d) := by
  unfold mustHave
  split
  · simp [countErrors_append]
  · exact Nat.le_refl _

lemma hasError_mustHave_mono (name value : String) (d : List Diag)
    (h : hasError d = true) : hasError (mustHave name value d) = true := by
  unfold mustHave
  split
  · simp [hasError_append, h]
  · exact h

lemma trimSuffix_empty_slash : trimSuffix "" "/" = "" := rfl

lemma hasError_nil : hasError [] = false := rfl

/-- Claim C8: `configValue` returns the configuration attribute's value when
the attribute is present (non-null); otherwise it returns the environment
variable's value when the variable is set, and otherwise the empty string. -/
theorem C8_configValue_resolution (cv : StringValue) (envName : String)
    (env : String → Option String) :
    configValue cv envName env =
      if cv.isNull then
        (match env envName with
         | some value => value
         | none => "")
      else cv.valueString := by
  cases cv <;> cases h : env envName <;>
    simp [configValue, getEnv, StringValue.isNull, h]

/-- Claim C9: a configuration attribute that is non-null but set to the empty
string does not fall back to the environment variable — `configValue` only
consults the environment when the attribute is null, so an explicitly empty
value resolves to the empty string even when the environment variable is
set. -/
theorem C9_explicit_empty_no_fallback (envName : String)
    (env : String → Option String) (s : String) (h : env envName = some s) :
    configValue (StringValue.known "") envName env = "" := rfl

theorem C9_witness :
    configValue (StringValue.known "") "UNLEASH_URL"
      (fun _ => some "http://from-env.example") = "" :=
  C9_explicit_empty_no_fallback "UNLEASH_URL"
    (fun _ => some "http://from-env.example") "http://from-env.example" rfl

/-- Claim C10: the factory `New version` ignores its argument — the provider
it builds has an empty `version` field, so `Metadata` reports an empty
version for every `version` string `New` was called with. -/
theorem C10_new_ignores_version (version : String) :
    (New version ()).version = "" ∧
      Metadata (New version ()) = { typeName := "unleash", version := "" } :=
  ⟨rfl, rfl⟩

/-- Claim C2: whenever `base_url` or `authorization` resolves to the empty
string (configuration attribute with environment fallback), `unleashClient`
returns no client and the returned diagnostics contain strictly more errors
than were passed in. -/
theorem C2_missing_config_errors (config : UnleashConfiguration)
    (env : String → Option String) (diags : List Diag)
    (h : configValue config.baseUrl "UNLEASH_URL" env = "" ∨
      configValue config.authorization "AUTH_TOKEN" env = "") :
    (unleashClient config env diags).fst = none ∧
      countErrors diags < countErrors (unleashClient config env diags).snd := by
  have herr : hasError (mustHave "authorization"
      (configValue config.authorization "AUTH_TOKEN" env)
      (mustHave "base_url"
        (trimSuffix (configValue config.baseUrl "UNLEASH_URL" env) "/")
        diags)) = true := by
    rcases h with hb | ha
    · apply hasError_mustHave_mono
      rw [hb, trimSuffix_empty_slash, mustHave_of_empty]
      simp [hasError_append, hasError, Diag.isError]
    · rw [ha, mustHave_of_empty]
      simp [hasError_append, hasError, Diag.isError]
  have hcount : countErrors diags < countErrors (mustHave "authorization"
      (configValue config.authorization "AUTH_TOKEN" env)
      (mustHave "base_url"
        (trimSuffix (configValue config.baseUrl "UNLEASH_URL" env) "/")
        diags)) := by
    rcases h with hb | ha
    · calc countErrors diags
          < countErrors (mustHave "base_url"
              (trimSuffix (configValue config.baseUrl "UNLEASH_URL" env) "/")
              diags) := by
            rw [hb, trimSuffix_empty_slash, mustHave_of_empty]
            simp [countErrors_append, countErrors, Diag.isError]
        _ ≤ _ := countErrors_mustHave_le _ _ _
    · calc countErrors diags
          ≤ countErrors (mustHave "base_url"
              (trimSuffix (configValue config.baseUrl "UNLEASH_URL" env) "/")
              diags) := countErrors_mustHave_le _ _ _
        _ < _ := by
            rw [ha, mustHave_of_empty]
            simp [countErrors_append, countErrors, Diag.isError]
  simp only [unleashClient, herr]
  simp [hcount]

theorem C2_witness :
    (configValue (StringValue.null : StringValue) "UNLEASH_URL" (fun _ => none) = "" ∨
      configValue (StringValue.null : StringValue) "AUTH_TOKEN" (fun _ => none) = "") ∧
    (unleashClient { baseUrl := .null, authorization := .null }
      (fun _ => none) []).fst = none ∧
    countErrors [] <
      countErrors (unleashClient { baseUrl := .null, authorization := .null }
        (fun _ => none) []).snd :=
  ⟨Or.inl rfl,
    C2_missing_config_errors { baseUrl := .null, authorization := .null }
      (fun _ => none) [] (Or.inl rfl)⟩

/-- Claim C3: when both `base_url` and `authorization` resolve to the empty
string, `unleashClient` reports the two error diagnostics in one pass —
exactly one naming each missing field, appended in order — and returns no
client. -/
theorem C3_aggregated_validation (config : UnleashConfiguration)
    (env : String → Option String) (diags : List Diag)
    (hb : configValue config.baseUrl "UNLEASH_URL" env = "")
    (ha : configValue config.authorization "AUTH_TOKEN" env = "") :
    (unleashClient config env diags).fst = none ∧
      (unleashClient config env diags).snd = diags ++
        [Diag.error "Unable to find base_url" "base_url cannot be an empty string",
         Diag.error "Unable to find authorization"
           "authorization cannot be an empty string"] := by
  simp [unleashClient, hb, ha, trimSuffix_empty_slash, mustHave_of_empty,
    hasError_append, hasError, Diag.isError]

theorem C3_witness :
    (unleashClient { baseUrl := .null, authorization := .known "" }
      (fun _ => none) []).fst = none ∧
    (unleashClient { baseUrl := .null, authorization := .known "" }
      (fun _ => none) []).snd =
      [Diag.error "Unable to find base_url" "base_url cannot be an empty string",
       Diag.error "Unable to find authorization"
         "authorization cannot be an empty string"] :=
  C3_aggregated_validation { baseUrl := .null, authorization := .known "" }
    (fun _ => none) [] rfl rfl

/-- Claim C4: for a version string that parses, `checkIsSupportedVersion`
adds a fatal error naming the given version and the minimum exactly when the
parsed version compares strictly below the minimum supported version
`5.6.0-0`, and adds nothing when it compares equal or above. -/
theorem C4_version_threshold (version : String) (v : Semver)
    (diags : List Diag) (h : semverNewVersion version = .ok v) :
    (semverCompare v minimumVersion < 0 →
      checkIsSupportedVersion version diags = diags ++
        [Diag.error "Unsupported Unleash version"
          ("You\x27re using version " ++ version ++
            ", while the provider requires at least " ++
            semverString minimumVersion)]) ∧
    (0 ≤ semverCompare v minimumVersion →
      checkIsSupportedVersion version diags = diags) := by
  constructor
  · intro hlt
    simp [checkIsSupportedVersion, h, hlt]
  · intro hge
    simp [checkIsSupportedVersion, h, not_lt.mpr hge]

theorem C4_witness :
    checkIsSupportedVersion "5.5.9" [] =
      [Diag.error "Unsupported Unleash version"
        ("You\x27re using version " ++ "5.5.9" ++
          ", while the provider requires at least " ++
          semverString minimumVersion)] :=
  (C4_version_threshold "5.5.9"
    { major := 5, minor := 5, patch := 9, pre := "", metadata := "" } [] rfl).1
    (by decide)

/-- Claim C6: for a version string that fails semantic-version parsing,
`checkIsSupportedVersion` adds exactly the parse-failure error diagnostic and
nothing else (in particular no comparison outcome). -/
theorem C6_unparseable_version (version e : String) (diags : List Diag)
    (h : semverNewVersion version = .error e) :
    checkIsSupportedVersion version diags = diags ++
      [Diag.error ("Unable read unleash version from string " ++ version) e] := by
  simp [checkIsSupportedVersion, h]

theorem C6_witness :
    checkIsSupportedVersion "not-a-version" [] =
      [Diag.error ("Unable read unleash version from string " ++ "not-a-version")
        "Invalid Semantic Version"] :=
  C6_unparseable_version "not-a-version" "Invalid Semantic Version" [] rfl

lemma unleashClient_some_no_error (config : UnleashConfiguration)
    (env : String → Option String) (diags : List Diag) (client : APIClient)
    (h : (unleashClient config env diags).fst = some client) :
    hasError (unleashClient config env diags).snd = false := by
  cases hd : hasError (mustHave "authorization"
      (configValue config.authorization "AUTH_TOKEN" env)
      (mustHave "base_url"
        (trimSuffix (configValue config.baseUrl "UNLEASH_URL" env) "/")
        diags)) with
  | false => simp [unleashClient, hd]
  | true => simp [unleashClient, hd] at h

lemma versionCheck_success_not_latest (call : ApiCall) (diags : List Diag)
    (v : Semver) (herr : call.err = none)
    (hstatus : call.statusCode = some 200)
    (hlatest : call.uiConfig.versionInfo.isLatest = false)
    (hparse : semverNewVersion call.uiConfig.version = .ok v)
    (hsupported : 0 ≤ semverCompare v minimumVersion) :
    versionCheck call diags = diags ++ [Diag.warning
      "You\x27re not using the latest Unleash version, consider upgrading"
      ("You\x27re using version " ++ call.uiConfig.version ++
        ", the latest unleash-server is " ++
        call.uiConfig.versionInfo.latest.oss ++
        ", while the latest enterprise version is: " ++
        call.uiConfig.versionInfo.latest.enterprise)] := by
  simp [versionCheck, ValidateApiResponse, herr, hstatus, hlatest,
    checkIsSupportedVersion, hparse, not_lt.mpr hsupported]

/-- Claim C5: when the metadata response succeeds with `isLatest = false` and
a supported version, `versionCheck` adds the not-latest warning listing the
latest OSS and Enterprise versions, adds no error, and provider configuration
still succeeds (a valid configuration still gets the client installed in both
`DataSourceData` and `ResourceData`). -/
theorem C5_not_latest_warning (call : ApiCall) (diags : List Diag)
    (v : Semver) (herr : call.err = none)
    (hstatus : call.statusCode = some 200)
    (hlatest : call.uiConfig.versionInfo.isLatest = false)
    (hparse : semverNewVersion call.uiConfig.version = .ok v)
    (hsupported : 0 ≤ semverCompare v minimumVersion) :
    versionCheck call diags = diags ++ [Diag.warning
      "You\x27re not using the latest Unleash version, consider upgrading"
      ("You\x27re using version " ++ call.uiConfig.version ++
        ", the latest unleash-server is " ++
        call.uiConfig.versionInfo.latest.oss ++
        ", while the latest enterprise version is: " ++
        call.uiConfig.versionInfo.latest.enterprise)] ∧
    hasError (versionCheck call diags) = hasError diags ∧
    (∀ config env client, (unleashClient config env []).fst = some client →
      (Configure [] config env call).dataSourceData = some client ∧
      (Configure [] config env call).resourceData = some client) := by
  have heq := versionCheck_success_not_latest call diags v herr hstatus hlatest
    hparse hsupported
  refine ⟨heq, ?_, ?_⟩
  · rw [heq, hasError_append]
    simp [hasError, Diag.isError]
  · intro config env client hclient
    have hsnd := unleashClient_some_no_error config env [] client hclient
    rcases hu : unleashClient config env [] with ⟨cl, d2⟩
    rw [hu] at hclient hsnd
    simp only at hclient hsnd
    have heq2 := versionCheck_success_not_latest call d2 v herr hstatus hlatest
      hparse hsupported
    have hv : hasError (versionCheck call d2) = false := by
      rw [heq2, hasError_append, hsnd]
      simp [hasError, Diag.isError]
    constructor <;>
      simp [Configure, hu, hsnd, hv, hclient, hasError_nil]

theorem C5_witness :
    versionCheck
      { uiConfig :=
          { version := "5.6.0",
            versionInfo :=
              { isLatest := false,
                latest := { oss := "7.1.0", enterprise := "7.1.0" } } },
        statusCode := some 200, err := none } [] =
      [Diag.warning
        "You\x27re not using the latest Unleash version, consider upgrading"
        ("You\x27re using version " ++ "5.6.0" ++
          ", the latest unleash-server is " ++ "7.1.0" ++
          ", while the latest enterprise version is: " ++ "7.1.0")] :=
  (C5_not_latest_warning
    { uiConfig :=
        { version := "5.6.0",
          versionInfo :=
            { isLatest := false,
              latest := { oss := "7.1.0", enterprise := "7.1.0" } } },
      statusCode := some 200, err := none } []
    { major := 5, minor := 6, patch := 0, pre := "", metadata := "" }
    rfl rfl rfl rfl (by decide)).1

lemma versionCheck_failed_response (call : ApiCall) (diags : List Diag)
    (hfail : call.err ≠ none ∨ call.statusCode ≠ some 200) :
    versionCheck call diags = diags ++
      [Diag.error "Unexpected API response"
        "the API call failed or returned an unexpected status code"] := by
  have hcond : (call.err.isSome || call.statusCode != some 200) = true := by
    rcases hfail with h | h
    · simp [Option.isSome_iff_ne_none, h]
    · simp [bne_iff_ne, h]
  simp [versionCheck, ValidateApiResponse, hcond]

/-- Claim C7: when the version-gate call fails (transport error or non-200
status), `versionCheck` adds exactly the response-validation error — no
warning and no version diagnostics — and `Configure` with such a call result
never sets `DataSourceData` or `ResourceData`. -/
theorem C7_failed_api_response (call : ApiCall) (diags : List Diag)
    (hfail : call.err ≠ none ∨ call.statusCode ≠ some 200) :
    versionCheck call diags = diags ++
      [Diag.error "Unexpected API response"
        "the API call failed or returned an unexpected status code"] ∧
    (∀ getDiags config env,
      (Configure getDiags config env call).dataSourceData = none ∧
      (Configure getDiags config env call).resourceData = none) := by
  refine ⟨versionCheck_failed_response call diags hfail, ?_⟩
  intro getDiags config env
  cases hg : hasError getDiags with
  | true => simp [Configure, hg]
  | false =>
    rcases hu : unleashClient config env getDiags with ⟨cl, d2⟩
    cases hd : hasError d2 with
    | true => simp [Configure, hg, hu, hd]
    | false =>
      have hv : hasError (versionCheck call d2) = true := by
        rw [versionCheck_failed_response call d2 hfail, hasError_append]
        simp [hasError, Diag.isError]
      simp [Configure, hg, hu, hd, hv]

theorem C7_witness :
    versionCheck
      { uiConfig :=
          { version := "5.6.0",
            versionInfo :=
              { isLatest := true, latest := { oss := "", enterprise := "" } } },
        statusCode := none, err := some "connection refused" } [] =
      [Diag.error "Unexpected API response"
        "the API call failed or returned an unexpected status code"] ∧
    (Configure []
      { baseUrl := .known "http://unleash.example", authorization := .known "t" }
      (fun _ => none)
      { uiConfig :=
          { version := "5.6.0",
            versionInfo :=
              { isLatest := true, latest := { oss := "", enterprise := "" } } },
        statusCode := none, err := some "connection refused" }).dataSourceData
      = none :=
  ⟨(C7_failed_api_response
      { uiConfig :=
          { version := "5.6.0",
            versionInfo :=
              { isLatest := true, latest := { oss := "", enterprise := "" } } },
        statusCode := none, err := some "connection refused" } []
      (Or.inl (by decide))).1,
    ((C7_failed_api_response
      { uiConfig :=
          { version := "5.6.0",
            versionInfo :=
              { isLatest := true, latest := { oss := "", enterprise := "" } } },
        statusCode := none, err := some "connection refused" } []
      (Or.inl (by decide))).2 []
      { baseUrl := .known "http://unleash.example", authorization := .known "t" }
      (fun _ => none)).1⟩

lemma slash_data : "/".data = ['/'] := rfl

lemma double_slash_data : "//".data = ['/', '/'] := rfl

lemma trimSuffix_slash_no_trailing (s : String)
    (h : endsWith s "//" = false) :
    endsWith (trimSuffix s "/") "/" = false := by
  unfold endsWith trimSuffix
  rw [slash_data]
  by_cases hs : (['/'] : List Char).isSuffixOf s.data = true
  · rw [if_pos hs]
    have hsuf : ['/'] <:+ s.data := by
      rwa [List.isSuffixOf_iff_suffix] at hs
    obtain ⟨t, ht⟩ := hsuf
    have hlen : s.data.length - (['/'] : List Char).length = t.length := by
      rw [← ht]
      simp
    rw [hlen, ← ht, List.take_left]
    rw [Bool.eq_false_iff]
    intro hc
    rw [List.isSuffixOf_iff_suffix] at hc
    obtain ⟨u, hu⟩ := hc
    have hu' : u ++ ['/'] = t := hu
    have hdouble : ['/', '/'] <:+ s.data := by
      refine ⟨u, ?_⟩
      rw [← ht, ← hu']
      simp
    rw [← List.isSuffixOf_iff_suffix, ← double_slash_data] at hdouble
    rw [endsWith] at h
    rw [hdouble] at h
    exact Bool.true_eq_false.mp h
  · rw [if_neg hs]
    exact Bool.eq_false_iff.mpr hs

/-- Claim C1 (counterexample): a valid configuration whose resolved base URL
ends in two slashes yields a client whose base URL still ends in a slash —
`strings.TrimSuffix` removes at most one trailing slash, refuting the claim
that the constructed URL never ends with one even when the input had
several. -/
theorem C1_counterexample :
    (unleashClient
      { baseUrl := .known "http://unleash.example//",
        authorization := .known "token" }
      (fun _ => none) []).fst =
      some
        { servers := [{ url := "http://unleash.example/",
                        description := "Unleash server" }]
          defaultHeaders := [("Authorization", "token")]
          isDebug := false } ∧
    endsWith "http://unleash.example/" "/" = true := by decide

/-- Claim C1 (amended): for every valid configuration whose resolved base URL
does not end in two consecutive slashes, the base URL used to construct the
client does not end with a trailing slash — at most one trailing slash is
stripped. -/
theorem C1_trailing_slash_amended (config : UnleashConfiguration)
    (env : String → Option String) (diags : List Diag) (client : APIClient)
    (hclient : (unleashClient config env diags).fst = some client)
    (hnot : endsWith (configValue config.baseUrl "UNLEASH_URL" env) "//" = false) :
    ∀ sc ∈ client.servers, endsWith sc.url "/" = false := by
  cases hd : hasError (mustHave "authorization"
      (configValue config.authorization "AUTH_TOKEN" env)
      (mustHave "base_url"
        (trimSuffix (configValue config.baseUrl "UNLEASH_URL" env) "/")
        diags)) with
  | true => simp [unleashClient, hd] at hclient
  | false =>
    simp only [unleashClient, hd] at hclient
    simp only [Bool.false_eq_true, if_false, Option.some.injEq] at hclient
    intro sc hsc
    rw [← hclient] at hsc
    simp only [List.mem_singleton] at hsc
    rw [hsc]
    exact trimSuffix_slash_no_trailing _ hnot

theorem C1_witness :
    endsWith (configValue (StringValue.known "http://unleash.example/")
      "UNLEASH_URL" (fun _ => none)) "//" = false ∧
    endsWith "http://unleash.example" "/" = false :=
  ⟨by decide,
    C1_trailing_slash_amended
      { baseUrl := .known "http://unleash.example/",
        authorization := .known "token" }
      (fun _ => none) []
      { servers := [{ url := "http://unleash.example",
                      description := "Unleash server" }]
        defaultHeaders := [("Authorization", "token")]
        isDebug := false }
      (by decide) (by decide)
      { url := "http://unleash.example", description := "Unleash server" }
      (by decide)⟩
